import Mathlib

/-!
Shallow embedding of `src/yoe.py` (WalkPath navigation assistant,
class `WalkPathNavApp`) for verification of its specification.

The program is a tkinter desktop app.  Its mutable state is the set of
instance attributes set in `__init__` (lines 37-41) plus the GUI widgets
that the handlers mutate (button states, status label, video label).
We embed that state as the structure `AppState` below, and each Python
method as a pure state-transition function:

  * `start_navigation`  — lines 91-112 (the "Start Navigation" button handler);
  * `stop_navigation`   — lines 114-130 (the "Stop Navigation" button handler);
  * `captureTick`       — `update_frame`, lines 139-162, one scheduled tick;
  * `geminiBody`        — one iteration of the `while self.is_running` loop
                          body of `run_gemini_assistant`, lines 181-204;
  * `runGemini`         — the loop itself, folded over a list of iteration
                          inputs (wall-clock reading and remote-call result).

External collaborators are modelled by their observable effect on this
state: `cv2.VideoCapture(0)` by a `Camera` value whose `opened` flag is
the camera's availability, `cap.release()` by an instrumentation counter
`releases`, the TTS engine (`speak`, lines 206-212) by the log `spoken`
of texts handed to it, `messagebox.showerror` by the log `dialogs`, and
the Gemini call by an oracle input `AdvResult` (success text or failure).
Frames are abstract values (`Frame`); a write of `latest_frame` installs
one whole frame, mirroring the single atomic attribute assignment at
line 146.
-/

namespace WalkPath

/-- A raw camera frame. The pixel contents are irrelevant to every claim,
so a frame is identified abstractly; each successfully captured frame is
one complete value. -/
structure Frame where
  id : Nat
deriving DecidableEq, Repr

/-- The object returned by `cv2.VideoCapture(0)` (line 96): always an
object (truthy in Python), with `isOpened()` telling whether the device
was actually acquired. -/
structure Camera where
  opened : Bool
deriving DecidableEq, Repr

/-- The mutable state of `WalkPathNavApp`: the attributes initialised at
lines 37-41 of `__init__`, plus the GUI state the handlers mutate
(buttons, status label at line 88, video label), plus instrumentation
logs for the externally observable effects (camera releases, texts sent
to the Speaker, error dialogs shown). -/
structure AppState where
  is_running : Bool
  cap : Option Camera
  latest_frame : Option Frame
  ai_thread : Bool
  last_spoken_time : ℤ
  btn_start_enabled : Bool
  btn_stop_enabled : Bool
  status : String
  video_label : Option Frame
  releases : Nat
  spoken : List String
  dialogs : List String
deriving DecidableEq, Repr

/-- The state after `__init__` (lines 37-41) and `setup_gui` (lines 79-89):
not running, no camera, no frame, no worker thread, `last_spoken_time = 0`,
Start enabled, Stop disabled, status label "Standing by...", video label
showing no frame. -/
def initState : AppState where
  is_running := false
  cap := none
  latest_frame := none
  ai_thread := false
  last_spoken_time := 0
  btn_start_enabled := true
  btn_stop_enabled := false
  status := "Standing by..."
  video_label := none
  releases := 0
  spoken := []
  dialogs := []

/-- The `start_navigation` handler, lines 91-112. `camOpened` is whether
`cv2.VideoCapture(0).isOpened()` holds, i.e. whether a camera is
available. Note that line 96 assigns `self.cap` before the check at
line 97, so a failed open still stores the (unopened) capture object. -/
def start_navigation (camOpened : Bool) (s : AppState) : AppState :=
  if s.is_running then s
  else
    let s1 := { s with cap := some ⟨camOpened⟩ }
    if camOpened then
      { s1 with
          is_running := true
          btn_start_enabled := false
          btn_stop_enabled := true
          status := "Activating systems..."
          spoken := s1.spoken ++ ["Navigation system activated."]
          ai_thread := true }
    else
      { s1 with dialogs := s1.dialogs ++ ["Webcam Error"] }

/-- The `stop_navigation` handler, lines 114-130, in source order: clear
`is_running`, re-enable Start, disable Stop, then (if `self.cap` is set)
release the camera and clear `self.cap`, then reset the video label, the
status label and speak the shutdown announcement. -/
def stop_navigation (s : AppState) : AppState :=
  if s.is_running then
    let s1 := { s with
        is_running := false
        btn_start_enabled := true
        btn_stop_enabled := false }
    let s2 :=
      if s1.cap.isSome then
        { s1 with releases := s1.releases + 1, cap := none }
      else s1
    { s2 with
        video_label := none
        status := "System offline. Press Start to begin."
        spoken := s2.spoken ++ ["Navigation system shutting down."] }
  else s

/-- One scheduled tick of `update_frame`, lines 139-162. `ret` and `f`
are the result of `self.cap.read()` at line 143 (`ret` false on a
transient capture failure). On a successful read the raw frame is stored
into `latest_frame` (line 146) and the video label is updated with the
displayed frame (lines 149-159); on a failed read nothing is changed and
the tick merely reschedules itself. The guard at line 142 requires
`is_running` and a truthy `self.cap` (any capture object, opened or not). -/
def captureTick (s : AppState) (ret : Bool) (f : Frame) : AppState :=
  if s.is_running ∧ s.cap.isSome then
    if ret then
      { s with latest_frame := some f, video_label := some f }
    else s
  else s

/-- Python `str.strip()` whitespace set (the six ASCII whitespace
characters), used at line 194. -/
def pyWhitespace (c : Char) : Bool :=
  c = ' ' || c = '\t' || c = '\n' || c = '\r' || c = '\x0b' || c = '\x0c'

/-- Python `str.strip()` with no argument: drop leading and trailing
whitespace characters. -/
def pyStrip (s : String) : String :=
  ⟨((s.data.dropWhile pyWhitespace).reverse.dropWhile pyWhitespace).reverse⟩

/-- Python `str.replace("*", "")`: remove every asterisk. -/
def removeStars (s : String) : String :=
  ⟨s.data.filter (fun c => c ≠ '*')⟩

/-- The response clean-up at line 194:
`response.text.strip().replace("*", "")` — strip surrounding whitespace,
then remove the markup emphasis characters. -/
def cleanAdvice (s : String) : String :=
  removeStars (pyStrip s)

/-- Outcome of one `generate_content` call (lines 190-194) as observed by
the `try` block: either `response.text` is obtained, or any exception
(timeout, transport error, malformed response) lands in the `except`
at line 199. -/
inductive AdvResult where
  | success (text : String)
  | failure
deriving DecidableEq, Repr

/-- Record of one advisory dispatch: the wall-clock moment at which
`last_spoken_time` was updated (line 184, immediately before the remote
call is issued) and the frame handed to the AdvisoryClient (line 188). -/
structure Dispatch where
  time : ℤ
  frame : Frame
deriving DecidableEq, Repr

/-- One iteration of the `while self.is_running` loop body of
`run_gemini_assistant`, lines 182-204. `now` is the reading of
`time.time()` for this iteration and `r` the oracle outcome of the
remote call. If more than 4 seconds have passed since
`last_spoken_time` (line 183) and a frame exists, the timestamp is
updated to `now` (line 184) and a request is dispatched; on success the
cleaned advice is published as `"AI Cue: " ++ advice` and spoken
(lines 194-197); on failure the generic error status is published
(line 201) — `is_running` is never touched. Returns the new state and
the dispatch, if one was issued. -/
def geminiBody (s : AppState) (now : ℤ) (r : AdvResult) :
    AppState × Option Dispatch :=
  if 4 < now - s.last_spoken_time then
    match s.latest_frame with
    | some f =>
      let s1 := { s with last_spoken_time := now, status := "Analyzing scene..." }
      match r with
      | .success text =>
        let advice := cleanAdvice text
        ({ s1 with
             status := "AI Cue: " ++ advice
             spoken := s1.spoken ++ [advice] },
         some ⟨now, f⟩)
      | .failure =>
        ({ s1 with status := "AI Error: Could not get navigation cue." },
         some ⟨now, f⟩)
    | none => (s, none)
  else (s, none)

/-- The `while self.is_running` advisory loop of `run_gemini_assistant`
(line 181), folded over the per-iteration inputs: the state after the
loop has consumed them (the loop exits as soon as it observes
`is_running = false` at the top of an iteration). -/
def runGeminiState : AppState → List (ℤ × AdvResult) → AppState
  | s, [] => s
  | s, (now, r) :: rest =>
    if s.is_running then runGeminiState (geminiBody s now r).1 rest else s

/-- The advisory requests issued by the `while self.is_running` loop of
`run_gemini_assistant` (line 181) over the given per-iteration inputs,
in dispatch order. -/
def runGeminiDispatches : AppState → List (ℤ × AdvResult) → List Dispatch
  | _, [] => []
  | s, (now, r) :: rest =>
    if s.is_running then
      (geminiBody s now r).2.toList ++ runGeminiDispatches (geminiBody s now r).1 rest
    else []

/-- An interleaving step of the two loops that share `latest_frame`:
either one capture tick (the writer, line 146) or one advisory-loop
iteration (the reader, lines 183 and 188). In CPython the attribute
assignment at line 146 installs a whole frame atomically under the GIL,
so each step sees the slot either before or after an entire write. -/
inductive ConcOp where
  | tick (ret : Bool) (f : Frame)
  | adv (now : ℤ) (r : AdvResult)
deriving DecidableEq, Repr

/-- Run an interleaved trace of capture ticks and advisory iterations,
collecting the value of `latest_frame` observed by each advisory
iteration (its read of the shared slot at lines 183/188). -/
def advReads : AppState → List ConcOp → List (Option Frame)
  | _, [] => []
  | s, ConcOp.tick ret f :: rest => advReads (captureTick s ret f) rest
  | s, ConcOp.adv now r :: rest => s.latest_frame :: advReads (geminiBody s now r).1 rest

/-- Whether a trace contains a successful capture tick, i.e. a write of
`latest_frame`. -/
def hasFrameWrite (ops : List ConcOp) : Bool :=
  ops.any fun op =>
    match op with
    | ConcOp.tick true _ => true
    | _ => false

/-- The externally visible actions of the `stop_navigation` handler, in
source order (lines 114-130). -/
inductive StopEvent where
  | setRunningFalse
  | enableStart
  | disableStop
  | releaseCamera
  | clearCap
  | resetVideoLabel
  | setStatusOffline
  | speakShutdown
deriving DecidableEq, Repr

/-- The ordered action trace of one `stop_navigation` call (lines
114-130): nothing if not running; otherwise clear the flag, re-enable
Start (line 119), disable Stop (line 120), then release and clear the
camera if `self.cap` is set (lines 123-125), then reset the video label,
set the offline status and speak the shutdown announcement
(lines 128-130). All of it runs synchronously before the handler
returns. -/
def stopEvents (s : AppState) : List StopEvent :=
  if s.is_running then
    [StopEvent.setRunningFalse, StopEvent.enableStart, StopEvent.disableStop]
      ++ (if s.cap.isSome then [StopEvent.releaseCamera, StopEvent.clearCap] else [])
      ++ [StopEvent.resetVideoLabel, StopEvent.setStatusOffline, StopEvent.speakShutdown]
  else []

/-- A concrete running session used to instantiate theorems: Start with
an available camera, then one successful capture tick storing frame 1. -/
def sampleRunning : AppState :=
  captureTick (start_navigation true initState) true ⟨1⟩

/-- Characterisation of one advisory iteration: either no request is
dispatched and `last_spoken_time` is untouched, or exactly one request
is dispatched at time `now`, `last_spoken_time` is set to `now` before
the call, and the guard forced `now` to be more than 4 seconds past the
previous value. -/
theorem geminiBody_spec (s : AppState) (now : ℤ) (r : AdvResult) :
    ((geminiBody s now r).2 = none
      ∧ (geminiBody s now r).1.last_spoken_time = s.last_spoken_time)
    ∨ (∃ d, (geminiBody s now r).2 = some d ∧ d.time = now
        ∧ (geminiBody s now r).1.last_spoken_time = now
        ∧ s.last_spoken_time + 4 < now) := by
  by_cases h : 4 < now - s.last_spoken_time
  · cases hf : s.latest_frame with
    | none => left; simp [geminiBody, h, hf]
    | some f =>
      right
      cases r with
      | success text =>
        exact ⟨⟨now, f⟩, by simp [geminiBody, h, hf], rfl,
          by simp [geminiBody, h, hf], by omega⟩
      | failure =>
        exact ⟨⟨now, f⟩, by simp [geminiBody, h, hf], rfl,
          by simp [geminiBody, h, hf], by omega⟩
  · left; simp [geminiBody, h]

/-- An advisory iteration never writes the shared frame slot: the
advisory loop is a pure reader of `latest_frame`. -/
theorem geminiBody_latest_frame (s : AppState) (now : ℤ) (r : AdvResult) :
    (geminiBody s now r).1.latest_frame = s.latest_frame := by
  by_cases h : 4 < now - s.last_spoken_time
  · cases hf : s.latest_frame <;> cases r <;> simp [geminiBody, h, hf]
  · simp [geminiBody, h]

/-- An advisory iteration never touches `is_running`. -/
theorem geminiBody_is_running (s : AppState) (now : ℤ) (r : AdvResult) :
    (geminiBody s now r).1.is_running = s.is_running := by
  by_cases h : 4 < now - s.last_spoken_time
  · cases hf : s.latest_frame <;> cases r <;> simp [geminiBody, h, hf]
  · simp [geminiBody, h]

/-- The `stop_navigation` early return (lines 115-116): on a
non-running state the handler does nothing. -/
theorem stop_navigation_not_running (s : AppState) (h : s.is_running = false) :
    stop_navigation s = s := by
  simp [stop_navigation, h]

/-- After `stop_navigation` of a running state the running flag is
cleared. -/
theorem stop_navigation_clears_running (s : AppState) (h : s.is_running = true) :
    (stop_navigation s).is_running = false := by
  by_cases hc : s.cap.isSome <;> simp [stop_navigation, h, hc]

/-- Invariant of the advisory loop: every dispatch happens more than 4
seconds after the `last_spoken_time` the loop started from, and any two
consecutive dispatches are more than 4 seconds apart. -/
theorem runGeminiDispatches_spec (inputs : List (ℤ × AdvResult)) :
    ∀ s : AppState,
      (∀ d ∈ runGeminiDispatches s inputs, s.last_spoken_time + 4 < d.time)
      ∧ List.Chain' (fun d1 d2 => d1.time + 4 < d2.time)
          (runGeminiDispatches s inputs) := by
  induction inputs with
  | nil =>
    intro s
    refine ⟨fun d hd => ?_, by simp [runGeminiDispatches]⟩
    simp [runGeminiDispatches] at hd
  | cons p rest ih =>
    intro s
    obtain ⟨now, r⟩ := p
    by_cases hrun : s.is_running
    · obtain ⟨ih1, ih2⟩ := ih (geminiBody s now r).1
      rcases geminiBody_spec s now r with ⟨h2, hlast⟩ | ⟨d0, h2, htime, hlast, hgap⟩
      · rw [hlast] at ih1
        constructor
        · intro d hd
          simp only [runGeminiDispatches, hrun, if_true, h2,
            Option.toList_none, List.nil_append] at hd
          exact ih1 d hd
        · simp only [runGeminiDispatches, hrun, if_true, h2,
            Option.toList_none, List.nil_append]
          exact ih2
      · rw [hlast] at ih1
        constructor
        · intro d hd
          simp only [runGeminiDispatches, hrun, if_true, h2,
            Option.toList_some, List.singleton_append, List.mem_cons] at hd
          rcases hd with rfl | hd
          · omega
          · have := ih1 d hd
            omega
        · simp only [runGeminiDispatches, hrun, if_true, h2,
            Option.toList_some, List.singleton_append]
          rw [List.chain'_cons']
          refine ⟨fun b hb => ?_, ih2⟩
          have hbmem : b ∈ runGeminiDispatches (geminiBody s now r).1 rest :=
            List.mem_of_mem_head? hb
          have := ih1 b hbmem
          omega
    · constructor
      · intro d hd
        simp [runGeminiDispatches, hrun] at hd
      · simp [runGeminiDispatches, hrun]

/-- With no successful capture tick in the trace, every advisory read of
the shared slot observes the initial value of `latest_frame`. -/
theorem advReads_const (ops : List ConcOp) :
    ∀ s : AppState, hasFrameWrite ops = false →
      ∀ x ∈ advReads s ops, x = s.latest_frame := by
  induction ops with
  | nil => intro s _ x hx; simp [advReads] at hx
  | cons op rest ih =>
    intro s h x hx
    cases op with
    | tick ret f =>
      cases ret with
      | false =>
        have hr : hasFrameWrite rest = false := by
          simpa [hasFrameWrite] using h
        have hid : captureTick s false f = s := by simp [captureTick]
        simp only [advReads, hid] at hx
        exact ih s hr x hx
      | true => simp [hasFrameWrite] at h
    | adv now r =>
      have hr : hasFrameWrite rest = false := by
        simpa [hasFrameWrite] using h
      simp only [advReads, List.mem_cons] at hx
      rcases hx with rfl | hx
      · rfl
      · have := ih _ hr x hx
        rwa [geminiBody_latest_frame] at this

/-- C1: for every successful advisory call, the returned instruction
text is cleaned (surrounding whitespace stripped, then markup emphasis
characters removed, line 194), the status is set to exactly
`"AI Cue: "` followed by the cleaned text (line 196), and the Speaker
receives exactly the cleaned text (line 197); in particular the
response `"Clear path ahead. Walk forward."` is its own cleaned form,
so the status becomes `"AI Cue: Clear path ahead. Walk forward."` and
the Speaker is given exactly that string. -/
theorem advisory_success_publishes_clean_text
    (s : AppState) (now : ℤ) (text : String) (f : Frame)
    (hgap : 4 < now - s.last_spoken_time) (hframe : s.latest_frame = some f) :
    ((geminiBody s now (AdvResult.success text)).1.status
      = "AI Cue: " ++ cleanAdvice text)
    ∧ ((geminiBody s now (AdvResult.success text)).1.spoken
      = s.spoken ++ [cleanAdvice text])
    ∧ cleanAdvice "Clear path ahead. Walk forward."
      = "Clear path ahead. Walk forward." := by
  refine ⟨?_, ?_, by decide⟩ <;> simp [geminiBody, hgap, hframe]

/-- Witness for C1: in a concrete running session with a captured frame,
the advisory success `"Clear path ahead. Walk forward."` at time 5 yields
that exact status and Speaker text. -/
theorem advisory_success_publishes_clean_text_witness :
    ((geminiBody sampleRunning 5
        (AdvResult.success "Clear path ahead. Walk forward.")).1.status
      = "AI Cue: " ++ cleanAdvice "Clear path ahead. Walk forward.")
    ∧ ((geminiBody sampleRunning 5
        (AdvResult.success "Clear path ahead. Walk forward.")).1.spoken
      = sampleRunning.spoken ++ [cleanAdvice "Clear path ahead. Walk forward."])
    ∧ cleanAdvice "Clear path ahead. Walk forward."
      = "Clear path ahead. Walk forward." :=
  advisory_success_publishes_clean_text sampleRunning 5
    "Clear path ahead. Walk forward." ⟨1⟩ (by decide) (by decide)

/-- C2: advisory requests are spaced by more than the fixed 4-second
interval (hence at least 4 seconds apart), measured from the previous
request's dispatch time — the moment `last_spoken_time` is updated at
line 184, before the remote call is issued. In particular, since the
dispatch time (not the completion time) is what `last_spoken_time`
records, after a call that times out after 20 seconds the next attempt
is gated on 4 seconds having passed since the original dispatch, not
since the timeout. This holds for every state and every sequence of
loop iterations. -/
theorem advisory_requests_spaced (s : AppState) (inputs : List (ℤ × AdvResult)) :
    List.Chain' (fun d1 d2 => d1.time + 4 < d2.time)
      (runGeminiDispatches s inputs) :=
  (runGeminiDispatches_spec inputs s).2

/-- C5: on a failed advisory call (timeout, network error, malformed
response — all landing in the `except` at line 199) the generic failure
status is published (line 201), the Speaker is not invoked, the session
is not terminated (`is_running` is untouched) and the loop goes on to
its next iterations; no immediate retry occurs because
`last_spoken_time` was set to the dispatch time, so any later dispatch
must wait until more than 4 seconds past it. -/
theorem advisory_failure_handling
    (s : AppState) (now : ℤ) (f : Frame) (hrun : s.is_running = true)
    (hgap : 4 < now - s.last_spoken_time) (hframe : s.latest_frame = some f) :
    ((geminiBody s now AdvResult.failure).1.status
      = "AI Error: Could not get navigation cue.")
    ∧ ((geminiBody s now AdvResult.failure).1.is_running = true)
    ∧ ((geminiBody s now AdvResult.failure).1.spoken = s.spoken)
    ∧ ((geminiBody s now AdvResult.failure).1.last_spoken_time = now)
    ∧ (∀ rest, runGeminiState s ((now, AdvResult.failure) :: rest)
        = runGeminiState (geminiBody s now AdvResult.failure).1 rest)
    ∧ (∀ (now' : ℤ) (r' : AdvResult),
        ((geminiBody (geminiBody s now AdvResult.failure).1 now' r').2).isSome
          → now + 4 < now') := by
  refine ⟨by simp [geminiBody, hgap, hframe], ?_, by simp [geminiBody, hgap, hframe],
    by simp [geminiBody, hgap, hframe], ?_, ?_⟩
  · rw [geminiBody_is_running]; exact hrun
  · intro rest; simp [runGeminiState, hrun]
  · intro now' r' hsome
    have hlast : (geminiBody s now AdvResult.failure).1.last_spoken_time = now := by
      simp [geminiBody, hgap, hframe]
    rcases geminiBody_spec (geminiBody s now AdvResult.failure).1 now' r' with
      ⟨h2, _⟩ | ⟨d, _, _, _, hgap'⟩
    · rw [h2] at hsome
      simp at hsome
    · rw [hlast] at hgap'
      exact hgap'

/-- Witness for C5: in a concrete running session, a failed call at
time 5 publishes the generic error status, keeps the session running,
speaks nothing, records dispatch time 5, and a dispatch at time 9 is
impossible while one at a later instant would be more than 4 seconds
past the original dispatch. -/
theorem advisory_failure_handling_witness :
    ((geminiBody sampleRunning 5 AdvResult.failure).1.status
      = "AI Error: Could not get navigation cue.")
    ∧ ((geminiBody sampleRunning 5 AdvResult.failure).1.is_running = true)
    ∧ ((geminiBody sampleRunning 5 AdvResult.failure).1.spoken = sampleRunning.spoken)
    ∧ ((geminiBody sampleRunning 5 AdvResult.failure).1.last_spoken_time = 5) :=
  have h := advisory_failure_handling sampleRunning 5 ⟨1⟩
    (by decide) (by decide) (by decide)
  ⟨h.1, h.2.1, h.2.2.1, h.2.2.2.1⟩

/-- C3 counterexample: session state survives Stop. In a concrete
session (Start, one captured frame, one advisory dispatch at time 5),
after Stop completes `latest_frame` still holds the old frame and
`last_spoken_time` still holds 5 — neither is reset by
`stop_navigation` (lines 114-130) — and the next Start (lines 91-112)
also leaves both untouched, so the next session does not begin with
them in their freshly-initialized empty state. -/
theorem session_state_survives_stop :
    ((stop_navigation (geminiBody sampleRunning 5 AdvResult.failure).1).latest_frame
      ≠ none)
    ∧ ((stop_navigation (geminiBody sampleRunning 5 AdvResult.failure).1).last_spoken_time
      ≠ 0)
    ∧ ((start_navigation true
        (stop_navigation (geminiBody sampleRunning 5 AdvResult.failure).1)).latest_frame
      ≠ none)
    ∧ ((start_navigation true
        (stop_navigation (geminiBody sampleRunning 5 AdvResult.failure).1)).last_spoken_time
      ≠ 0) := by
  decide

/-- C3 amended: after Stop completes, `is_running` is false and the
camera handle, video label and status are reset, but `latest_frame` and
`last_spoken_time` are NOT reset — they keep their values and are
carried unchanged into the next Start. -/
theorem stop_partial_reset (s : AppState) (h : s.is_running = true) :
    (stop_navigation s).is_running = false
    ∧ (stop_navigation s).cap = none
    ∧ (stop_navigation s).video_label = none
    ∧ (stop_navigation s).latest_frame = s.latest_frame
    ∧ (stop_navigation s).last_spoken_time = s.last_spoken_time
    ∧ (start_navigation true (stop_navigation s)).latest_frame = s.latest_frame
    ∧ (start_navigation true (stop_navigation s)).last_spoken_time
      = s.last_spoken_time := by
  by_cases hc : s.cap.isSome <;>
    simp_all [stop_navigation, start_navigation, hc, Option.not_isSome_iff_eq_none]

/-- Witness for the amended C3 at the concrete running session. -/
theorem stop_partial_reset_witness :
    (stop_navigation sampleRunning).is_running = false
    ∧ (stop_navigation sampleRunning).cap = none
    ∧ (stop_navigation sampleRunning).video_label = none
    ∧ (stop_navigation sampleRunning).latest_frame = sampleRunning.latest_frame
    ∧ (stop_navigation sampleRunning).last_spoken_time
      = sampleRunning.last_spoken_time
    ∧ (start_navigation true (stop_navigation sampleRunning)).latest_frame
      = sampleRunning.latest_frame
    ∧ (start_navigation true (stop_navigation sampleRunning)).last_spoken_time
      = sampleRunning.last_spoken_time :=
  stop_partial_reset sampleRunning (by decide)

/-- C4: Stop is idempotent — for a running session with an open camera,
calling `stop_navigation` twice leaves exactly the state a single call
leaves (the second call returns at line 115-116 because `is_running` is
already false), and the camera device is released exactly once (the
release counter grows by exactly 1, lines 123-125, and the cleared
`cap` prevents any further release). -/
theorem stop_idempotent_release_once (s : AppState)
    (h1 : s.is_running = true) (h2 : s.cap.isSome = true) :
    stop_navigation (stop_navigation s) = stop_navigation s
    ∧ (stop_navigation s).releases = s.releases + 1 := by
  constructor
  · exact stop_navigation_not_running _ (stop_navigation_clears_running s h1)
  · simp [stop_navigation, h1, h2]

/-- Witness for C4 at the concrete running session. -/
theorem stop_idempotent_release_once_witness :
    stop_navigation (stop_navigation sampleRunning) = stop_navigation sampleRunning
    ∧ (stop_navigation sampleRunning).releases = sampleRunning.releases + 1 :=
  stop_idempotent_release_once sampleRunning (by decide) (by decide)

/-- C6 counterexample: Start with no camera shows the DeviceError
dialog, leaves `running` false and spawns no worker thread — but it is
not true that there is "no other state change": line 96 assigns
`self.cap = cv2.VideoCapture(0)` before the `isOpened()` check at
line 97, so the failed (unopened) capture object is stored and the
`cap` attribute differs from its value before the call. -/
theorem start_no_camera_stores_failed_handle :
    (start_navigation false initState).is_running = false
    ∧ (start_navigation false initState).ai_thread = false
    ∧ (start_navigation false initState).dialogs = ["Webcam Error"]
    ∧ (start_navigation false initState).cap ≠ initState.cap := by
  decide

/-- C6 amended: if Start is invoked when the device fails to open, the
DeviceError dialog is shown, `running` remains false, no worker thread
is spawned, the session never begins, and nothing else changes except
that the `cap` attribute now holds the failed (unopened) capture
handle. -/
theorem start_no_camera_aborts (s : AppState) (h : s.is_running = false) :
    (start_navigation false s).is_running = false
    ∧ (start_navigation false s).ai_thread = s.ai_thread
    ∧ (start_navigation false s).dialogs = s.dialogs ++ ["Webcam Error"]
    ∧ (start_navigation false s).cap = some ⟨false⟩
    ∧ (start_navigation false s).latest_frame = s.latest_frame
    ∧ (start_navigation false s).last_spoken_time = s.last_spoken_time
    ∧ (start_navigation false s).btn_start_enabled = s.btn_start_enabled
    ∧ (start_navigation false s).btn_stop_enabled = s.btn_stop_enabled
    ∧ (start_navigation false s).status = s.status
    ∧ (start_navigation false s).spoken = s.spoken
    ∧ (start_navigation false s).video_label = s.video_label
    ∧ (start_navigation false s).releases = s.releases := by
  simp [start_navigation, h]

/-- Witness for the amended C6 at the freshly initialised state. -/
theorem start_no_camera_aborts_witness :
    (start_navigation false initState).is_running = false
    ∧ (start_navigation false initState).ai_thread = initState.ai_thread
    ∧ (start_navigation false initState).dialogs
      = initState.dialogs ++ ["Webcam Error"]
    ∧ (start_navigation false initState).cap = some ⟨false⟩
    ∧ (start_navigation false initState).latest_frame = initState.latest_frame
    ∧ (start_navigation false initState).last_spoken_time
      = initState.last_spoken_time
    ∧ (start_navigation false initState).btn_start_enabled
      = initState.btn_start_enabled
    ∧ (start_navigation false initState).btn_stop_enabled
      = initState.btn_stop_enabled
    ∧ (start_navigation false initState).status = initState.status
    ∧ (start_navigation false initState).spoken = initState.spoken
    ∧ (start_navigation false initState).video_label = initState.video_label
    ∧ (start_navigation false initState).releases = initState.releases :=
  start_no_camera_aborts initState (by decide)

/-- C7 counterexample: in the Stop handler's action trace for a running
session, the Start control is re-enabled at line 119 BEFORE the camera
is released at line 124, so it is not the case that the release happens
before the Start control returns to its enabled state. -/
theorem stop_release_not_before_enable :
    stopEvents (start_navigation true initState)
      = [StopEvent.setRunningFalse, StopEvent.enableStart, StopEvent.disableStop,
         StopEvent.releaseCamera, StopEvent.clearCap, StopEvent.resetVideoLabel,
         StopEvent.setStatusOffline, StopEvent.speakShutdown]
    ∧ ¬((stopEvents (start_navigation true initState)).indexOf
          StopEvent.releaseCamera
        < (stopEvents (start_navigation true initState)).indexOf
          StopEvent.enableStart) := by
  decide

/-- C7 amended: when Stop is called on a running session with an open
camera, the camera is released within the synchronous Stop handler, but
the Start control is re-enabled BEFORE the release (line 119 precedes
line 124), not after it. -/
theorem stop_enable_precedes_release (s : AppState)
    (h1 : s.is_running = true) (h2 : s.cap.isSome = true) :
    StopEvent.releaseCamera ∈ stopEvents s
    ∧ (stopEvents s).indexOf StopEvent.enableStart
      < (stopEvents s).indexOf StopEvent.releaseCamera := by
  have he : stopEvents s
      = [StopEvent.setRunningFalse, StopEvent.enableStart, StopEvent.disableStop,
         StopEvent.releaseCamera, StopEvent.clearCap, StopEvent.resetVideoLabel,
         StopEvent.setStatusOffline, StopEvent.speakShutdown] := by
    simp [stopEvents, h1, h2]
  rw [he]
  decide

/-- Witness for the amended C7 at the concrete running session. -/
theorem stop_enable_precedes_release_witness :
    StopEvent.releaseCamera ∈ stopEvents sampleRunning
    ∧ (stopEvents sampleRunning).indexOf StopEvent.enableStart
      < (stopEvents sampleRunning).indexOf StopEvent.releaseCamera :=
  stop_enable_precedes_release sampleRunning (by decide) (by decide)

/-- C8 counterexample: the Start and Stop button handlers run as
tkinter callbacks on the UI scheduling thread, yet both invoke the
blocking Speaker: `self.speak("Navigation system activated.")` at
line 105 inside `start_navigation` and
`self.speak("Navigation system shutting down.")` at line 130 inside
`stop_navigation` — visible here as texts appended to the Speaker log
by those two UI-thread operations. So it is not the case that no
UI-thread operation ever invokes the blocking Speaker call. -/
theorem ui_handlers_invoke_speaker :
    (start_navigation true initState).spoken = ["Navigation system activated."]
    ∧ (stop_navigation sampleRunning).spoken
      = ["Navigation system activated.", "Navigation system shutting down."] := by
  decide

/-- C8 amended: the remote advisory call executes only in the
worker-thread loop (`run_gemini_assistant` is the only code issuing it)
and the capture tick never invokes the Speaker, but the Start and Stop
handlers DO invoke the blocking Speaker on the UI thread — Start speaks
the activation announcement when it begins a session and Stop speaks
the shutdown announcement when it ends one; only the per-cue playback
of line 197 happens on the worker thread. The theorem gives the exact
Speaker traffic of each UI-thread operation. -/
theorem ui_thread_speaker_traffic (s : AppState) (ret : Bool) (f : Frame)
    (camOpened : Bool) :
    (captureTick s ret f).spoken = s.spoken
    ∧ (start_navigation camOpened s).spoken
      = s.spoken ++ (if s.is_running then []
          else if camOpened then ["Navigation system activated."] else [])
    ∧ (stop_navigation s).spoken
      = s.spoken ++ (if s.is_running then ["Navigation system shutting down."]
          else []) := by
  refine ⟨?_, ?_, ?_⟩
  · unfold captureTick
    split_ifs <;> rfl
  · by_cases hrun : s.is_running <;> by_cases hcam : camOpened <;>
      simp [start_navigation, hrun, hcam]
  · by_cases hrun : s.is_running
    · by_cases hc : s.cap.isSome <;> simp [stop_navigation, hrun, hc]
    · simp [stop_navigation, hrun]

/-- C9: every advisory-loop read of `latest_frame` observes either no
frame or one complete frame (a write at line 146 installs one whole
frame atomically, so a read never sees a partial one), and for a write
followed by any number of advisory iterations before the next write,
every one of those reads observes that identical frame — the advisory
loop never writes the slot, and a failed tick never writes either, so
nothing can tear the value or skip ahead to an unwritten frame. -/
theorem latest_frame_reads_consistent (s : AppState) (ops : List ConcOp)
    (hw : hasFrameWrite ops = false) :
    (∀ x ∈ advReads s ops, x = s.latest_frame)
    ∧ (∀ f : Frame, s.is_running = true → s.cap.isSome = true →
        ∀ x ∈ advReads s (ConcOp.tick true f :: ops), x = some f) := by
  refine ⟨advReads_const ops s hw, ?_⟩
  intro f hrun hcap x hx
  simp only [advReads] at hx
  have hct : (captureTick s true f).latest_frame = some f := by
    simp [captureTick, hrun, hcap]
  have := advReads_const ops (captureTick s true f) hw x hx
  rw [this, hct]

/-- Witness for C9: in the concrete running session, the advisory read
in a write-free trace observes the session's current frame, and after a
write of frame 2 the subsequent advisory read observes frame 2. -/
theorem latest_frame_reads_consistent_witness :
    (some (⟨1⟩ : Frame) : Option Frame) = sampleRunning.latest_frame
    ∧ (some (⟨2⟩ : Frame) : Option Frame) = some ⟨2⟩ :=
  have h := latest_frame_reads_consistent sampleRunning
    [ConcOp.adv 99 AdvResult.failure] (by decide)
  ⟨h.1 (some ⟨1⟩) (by decide),
   h.2 ⟨2⟩ (by decide) (by decide) (some ⟨2⟩) (by decide)⟩

/-- C10: a capture tick whose camera read fails leaves the whole state
unchanged — in particular `latest_frame` keeps the frame of the last
successful read instead of becoming empty (lines 143-144: nothing
happens when `ret` is false, the tick only reschedules itself) — and an
advisory request issued afterwards is dispatched with that retained,
possibly stale, frame (line 188). -/
theorem failed_read_keeps_state (s : AppState) (f0 : Frame)
    (hframe : s.latest_frame = some f0) :
    (∀ f : Frame, captureTick s false f = s)
    ∧ (∀ (now : ℤ) (r : AdvResult), 4 < now - s.last_spoken_time →
        (geminiBody s now r).2 = some ⟨now, f0⟩) := by
  constructor
  · intro f
    unfold captureTick
    split_ifs <;> first | rfl | contradiction
  · intro now r h
    cases r <;> simp [geminiBody, h, hframe]

/-- Witness for C10 at the concrete running session: a failed read
changes nothing and the next dispatch carries the retained frame 1. -/
theorem failed_read_keeps_state_witness :
    captureTick sampleRunning false ⟨9⟩ = sampleRunning
    ∧ (geminiBody sampleRunning 7 AdvResult.failure).2 = some ⟨7, ⟨1⟩⟩ :=
  have h := failed_read_keeps_state sampleRunning ⟨1⟩ (by decide)
  ⟨h.1 ⟨9⟩, h.2 7 AdvResult.failure (by decide)⟩

end WalkPath
